import Mathlib

/-!
# Verification of the ScholarSearch search-session controller

Shallow embedding of the core logic of `src/frontend/src/App.js`:
the search submission handler (`handleSearch`), the history operations
(`loadSearchHistory`, `clearHistory`) and the display normalizers
(`formatAuthors`, `truncateAbstract`).

Modelling conventions:
* JavaScript strings are modelled by Lean `String`; a position-based
  slice such as `substring(0, n)` is modelled as taking the first `n`
  characters of the string's character sequence (`s.data.take n`).
* A JavaScript value that may be `null`/`undefined` is modelled by
  `Option`.
* `parseInt` may produce `NaN`; a numeric result of `parseInt` is
  therefore modelled by `JsNumber` with an explicit `nan` constructor.
* The asynchronous behaviour of `handleSearch` / `loadSearchHistory`
  is modelled by an environment-scheduled event trace: each event is
  one atomic continuation of the source (a submit entering the handler,
  a search request settling, a history fetch settling), applied to the
  component's state.  The source installs no request identity check, so
  the continuation run at a settle event does not depend on which
  in-flight request settled.
-/

namespace ScholarSearch

/-- Result of JavaScript `parseInt`: either an integer or `NaN`.
(When a `searchData` payload containing `NaN` is serialized to JSON by
the HTTP client, `NaN` becomes `null` on the wire.) -/
inductive JsNumber where
  | nan : JsNumber
  | int : Int → JsNumber
deriving DecidableEq, Repr

/-- Value of a decimal digit sequence, most significant digit first. -/
def digitsVal (ds : List Char) : Nat :=
  ds.foldl (fun acc c => acc * 10 + (c.toNat - 48)) 0

/-- JavaScript `parseInt(s)` (radix 10): skip leading whitespace, read an
optional sign, then the longest prefix of decimal digits; `NaN` when that
prefix is empty.  (The automatic radix-16 detection of `parseInt` on a
`0x` prefix is not modelled; the year inputs are decimal.) -/
def jsParseInt (s : String) : JsNumber :=
  let t := s.data.dropWhile Char.isWhitespace
  let signAndRest : Int × List Char :=
    match t with
    | '-' :: cs => (-1, cs)
    | '+' :: cs => (1, cs)
    | cs => (1, cs)
  let ds := signAndRest.2.takeWhile Char.isDigit
  if ds.isEmpty then JsNumber.nan
  else JsNumber.int (signAndRest.1 * (digitsVal ds : Int))

/-- JavaScript `s.trim()`: the string with whitespace removed from both
ends, computed on the character sequence. -/
def jsTrim (s : String) : String :=
  String.mk (((s.data.dropWhile Char.isWhitespace).reverse.dropWhile
    Char.isWhitespace).reverse)

/-- The body of a successful search response (`response.data`, App.js
lines 68–71): the papers (kept opaque as display payloads), the total
count and the query-info echo. -/
structure SearchResponse where
  papers : List String
  total_count : Nat
  query_info : String
deriving DecidableEq, Repr

/-- The request body `searchData` (App.js lines 59–66). -/
structure SearchData where
  query : String
  author : Option String
  venue : Option String
  year_from : Option JsNumber
  year_to : Option JsNumber
  limit : Nat
deriving DecidableEq, Repr

/-- Builds `searchData` (App.js lines 59–66): the query is trimmed; the
optional author and venue are trimmed with `"" || null` collapsing an
empty trim to `null`; a non-empty year text is passed through `parseInt`
unvalidated and unclamped (`yearFrom ? parseInt(yearFrom) : null`);
`limit` is the constant 20. -/
def buildSearchData (query author venue yearFrom yearTo : String) : SearchData :=
  { query := jsTrim query
    author := if jsTrim author = "" then none else some (jsTrim author)
    venue := if jsTrim venue = "" then none else some (jsTrim venue)
    year_from := if yearFrom = "" then none else some (jsParseInt yearFrom)
    year_to := if yearTo = "" then none else some (jsParseInt yearTo)
    limit := 20 }

/-- The component state touched by the handlers (App.js lines 15–20),
plus observable instrumentation: `alerts` counts `alert(...)` calls
(line 75), `requestsIssued` counts POSTs to `/api/search` (line 68) and
`historyRefreshes` counts `loadSearchHistory()` calls triggered by a
search response (line 72). -/
structure AppState where
  searchResults : List String
  totalCount : Nat
  queryInfo : Option String
  searchHistory : List String
  loading : Bool
  alerts : Nat
  requestsIssued : Nat
  historyRefreshes : Nat
deriving DecidableEq, Repr

/-- The `useState` initial values (App.js lines 15–20) with zeroed
instrumentation. -/
def initialState : AppState :=
  { searchResults := []
    totalCount := 0
    queryInfo := none
    searchHistory := []
    loading := false
    alerts := 0
    requestsIssued := 0
    historyRefreshes := 0 }

/-- The synchronous prefix of `handleSearch` (App.js lines 53–68): if
the trimmed query is empty the handler returns early — no state change
and no request (`none`); otherwise `loading` is set and the built
`searchData` is POSTed (`some`). -/
def handleSearch (s : AppState) (query author venue yearFrom yearTo : String) :
    AppState × Option SearchData :=
  if jsTrim query = "" then (s, none)
  else ({ s with loading := true, requestsIssued := s.requestsIssued + 1 },
        some (buildSearchData query author venue yearFrom yearTo))

/-- One atomic step of the interleaved execution: a submit entering
`handleSearch`, an in-flight search request settling (fulfilled with a
response body, or rejected), or an in-flight history fetch settling.
Which in-flight request a settle event belongs to is chosen by the
environment; the source keeps no request identity, so the continuation
it runs is the same either way. -/
inductive AppEvent where
  | submit (query author venue yearFrom yearTo : String)
  | resolveOk (r : SearchResponse)
  | resolveErr
  | historyOk (entries : List String)
  | historyErr
deriving DecidableEq, Repr

/-- The continuation the source runs at each event:
* `submit` — the synchronous prefix of `handleSearch` (lines 53–68);
* `resolveOk r` — the `then` continuation plus `finally` (lines 69–72,
  77): results, count and query info are overwritten from `r` with no
  staleness check, a history refresh is fired, and `loading` clears;
* `resolveErr` — the `catch` plus `finally` (lines 73–77): an alert is
  raised and `loading` clears, with no other state change;
* `historyOk entries` — `loadSearchHistory` succeeding (line 47);
* `historyErr` — `loadSearchHistory` failing (lines 48–50): the error
  is logged and nothing changes. -/
def applyEvent (s : AppState) (e : AppEvent) : AppState :=
  match e with
  | .submit query author venue yearFrom yearTo =>
      (handleSearch s query author venue yearFrom yearTo).1
  | .resolveOk r =>
      { s with searchResults := r.papers
               totalCount := r.total_count
               queryInfo := some r.query_info
               historyRefreshes := s.historyRefreshes + 1
               loading := false }
  | .resolveErr =>
      { s with alerts := s.alerts + 1
               loading := false }
  | .historyOk entries => { s with searchHistory := entries }
  | .historyErr => s

/-- Runs an environment-chosen schedule of events. -/
def runEvents (s : AppState) (es : List AppEvent) : AppState :=
  es.foldl applyEvent s

/-- Outcome of a settled network call. -/
inductive ReqOutcome where
  | ok : ReqOutcome
  | err : ReqOutcome
deriving DecidableEq, Repr

/-- State relevant to the history cache: the authoritative external
store and the client's cached `searchHistory` list. -/
structure HistoryWorld where
  store : List String
  searchHistory : List String
deriving DecidableEq, Repr

/-- `loadSearchHistory` (App.js lines 44–51) with the fetch outcome
chosen by the environment: on success the cache is set to the store's
contents; on failure the error is logged and the cache is untouched. -/
def loadSearchHistory (w : HistoryWorld) (fetch : ReqOutcome) : HistoryWorld :=
  match fetch with
  | .ok => { w with searchHistory := w.store }
  | .err => w

/-- `clearHistory` (App.js lines 81–90).  On a successful DELETE the
store is emptied, `setSearchHistory([])` empties the cache, and
`loadSearchHistory()` is awaited (with its own outcome); the returned
flag records that a refresh was performed.  On a failed DELETE the
`await` throws into the `catch`, which only logs: no cache change and no
refresh (`false`). -/
def clearHistory (w : HistoryWorld) (del fetch : ReqOutcome) : HistoryWorld × Bool :=
  match del with
  | .ok => (loadSearchHistory { store := [], searchHistory := [] } fetch, true)
  | .err => (w, false)

/-- The history display window (App.js line 369): the first `n` cached
entries, `n = 10` in the UI. -/
def display (w : HistoryWorld) (n : Nat) : List String :=
  w.searchHistory.take n

/-- `formatAuthors` (App.js lines 92–97).  The source tests
`authors.length` for 0, 1, 2 and otherwise joins `authors.slice(0, 2)`
with `", "` and appends `" et al."`; the length tests are rendered as a
match on the list shape (`join(" and ")` on a two-element list is
`a ++ " and " ++ b`, and `slice(0, 2).join(", ")` on `a :: b :: _` is
`a ++ ", " ++ b`). -/
def formatAuthors : List String → String
  | [] => "Unknown authors"
  | [a] => a
  | [a, b] => a ++ " and " ++ b
  | a :: b :: _ :: _ => a ++ ", " ++ b ++ " et al."

/-- `truncateAbstract` (App.js lines 99–102), default `maxLength = 300`.
`!abstract` (absent abstract) returns the abstract unchanged; a string of
length at most `maxLength` is returned unchanged; otherwise
`abstract.substring(0, maxLength) + "..."`. -/
def truncateAbstract (abstract : Option String) (maxLength : Nat) : Option String :=
  match abstract with
  | none => none
  | some s =>
      if s.length ≤ maxLength then some s
      else some (String.mk (s.data.take maxLength ++ "...".data))

end ScholarSearch

namespace ScholarSearch

theorem length_eq_data_length (s : String) : s.length = s.data.length := rfl

theorem take_300_length (s : String) (h : 300 < s.length) :
    (s.data.take 300).length = 300 := by
  rw [List.length_take]
  refine min_eq_left ?_
  have := length_eq_data_length s
  omega

/-- C3: `formatAuthors` of the empty list is `"Unknown authors"`, of a
singleton is its element, of a pair is the pair joined by `" and "`, and
of three or more authors is the first two joined by `", "` followed by
`" et al."`. -/
theorem formatAuthors_spec (a b c : String) (rest : List String) :
    formatAuthors [] = "Unknown authors" ∧
    formatAuthors [a] = a ∧
    formatAuthors [a, b] = a ++ " and " ++ b ∧
    formatAuthors (a :: b :: c :: rest) = a ++ ", " ++ b ++ " et al." :=
  ⟨rfl, rfl, rfl, rfl⟩

/-- C4: with `maxLength = 300`, an absent abstract stays absent; an
abstract of length at most 300 is returned unchanged; an abstract of
length above 300 yields a string of exactly 303 characters whose first
300 characters are the input's first 300 characters and whose last 3
characters are three ASCII periods. -/
theorem truncateAbstract_spec (s : String) :
    truncateAbstract none 300 = none ∧
    (s.length ≤ 300 → truncateAbstract (some s) 300 = some s) ∧
    (300 < s.length →
      ∃ t : String, truncateAbstract (some s) 300 = some t ∧
        t.length = 303 ∧
        t.data.take 300 = s.data.take 300 ∧
        t.data.drop 300 = ['.', '.', '.']) := by
  refine ⟨rfl, fun h => by simp [truncateAbstract, h], fun h => ?_⟩
  have h300 : (s.data.take 300).length = 300 := take_300_length s h
  refine ⟨String.mk (s.data.take 300 ++ "...".data), ?_, ?_, ?_, ?_⟩
  · simp [truncateAbstract]
    omega
  · show (s.data.take 300 ++ "...".data).length = 303
    rw [List.length_append, h300]
    rfl
  · show (s.data.take 300 ++ "...".data).take 300 = s.data.take 300
    rw [List.take_append_of_le_length (by rw [h300]), List.take_take]
    simp
  · show (s.data.take 300 ++ "...".data).drop 300 = "...".data
    rw [List.drop_append_of_le_length (by rw [h300]), List.drop_eq_nil_iff.mpr (by rw [h300])]
    rfl

/-- Witness for `truncateAbstract_spec`: both the unchanged branch (a
2-character abstract) and the truncating branch (a 301-character
abstract) at concrete inputs. -/
theorem truncateAbstract_spec_witness :
    truncateAbstract (some "ab") 300 = some "ab" ∧
    (∃ t : String,
        truncateAbstract (some (String.mk (List.replicate 301 'a'))) 300 = some t ∧
        t.length = 303 ∧
        t.data.take 300 = (String.mk (List.replicate 301 'a')).data.take 300 ∧
        t.data.drop 300 = ['.', '.', '.']) :=
  ⟨(truncateAbstract_spec "ab").2.1 (by decide),
   (truncateAbstract_spec (String.mk (List.replicate 301 'a'))).2.2
     (by show (300 : Nat) < (List.replicate 301 'a').length
         rw [List.length_replicate]
         omega)⟩

/-- C5: `truncateAbstract` (with its default `maxLength = 300`) is
idempotent: applying it to its own output returns that output
unchanged, for every abstract (absent included). -/
theorem truncateAbstract_idempotent (x : Option String) :
    truncateAbstract (truncateAbstract x 300) 300 = truncateAbstract x 300 := by
  match x with
  | none => rfl
  | some s =>
    by_cases h : s.length ≤ 300
    · simp [truncateAbstract, h]
    · have h' : 300 < s.length := by omega
      have h300 : (s.data.take 300).length = 300 := take_300_length s h'
      have hlong : ¬ (String.mk (s.data.take 300 ++ "...".data)).length ≤ 300 := by
        show ¬ (s.data.take 300 ++ "...".data).length ≤ 300
        rw [List.length_append, h300]
        have hd : ("...".data).length = 3 := rfl
        omega
      simp only [truncateAbstract, h, if_neg hlong, if_false]
      congr 2
      rw [List.take_append_of_le_length (by rw [h300]), List.take_take]
      simp

/-- C6: a raw query that trims to empty makes `handleSearch` return
early: no request is issued (`none`) and the component state is
unchanged — the empty-query validation outcome is resolved locally. -/
theorem emptyQuery_noSubmit (s : AppState) (q a v yf yt : String)
    (h : jsTrim q = "") :
    handleSearch s q a v yf yt = (s, none) ∧
    applyEvent s (AppEvent.submit q a v yf yt) = s := by
  constructor
  · simp [handleSearch, h]
  · simp [applyEvent, handleSearch, h]

/-- Witness for `emptyQuery_noSubmit` at the whitespace-only query
`"   "`. -/
theorem emptyQuery_noSubmit_witness :
    handleSearch initialState "   " "x" "y" "1" "2" = (initialState, none) ∧
    applyEvent initialState (AppEvent.submit "   " "x" "y" "1" "2") = initialState :=
  emptyQuery_noSubmit initialState "   " "x" "y" "1" "2" (by decide)

/-- C7 counterexample: with query `"q"` and the non-numeric year text
`"abc"`, `handleSearch` does not fail with `InvalidYear` — it issues the
request, carrying `parseInt("abc") = NaN` in `year_from`. -/
theorem invalidYear_counterexample :
    (handleSearch initialState "q" "" "" "abc" "").2 =
      some { query := "q", author := none, venue := none,
             year_from := some JsNumber.nan, year_to := none, limit := 20 } ∧
    (handleSearch initialState "q" "" "" "abc" "").2 ≠ none := by
  exact ⟨by decide, by decide⟩

/-- C7 amended: for every non-empty-trimmed query, a request is issued
whatever the year texts hold; each non-empty year text is passed through
`parseInt` verbatim — a non-numeric text yields `NaN` (serialized as
absent on the wire) rather than a local `InvalidYear` failure, and an
out-of-range numeric text is neither rejected nor clamped. -/
theorem yearParsing_amended (s : AppState) (q a v yf yt : String)
    (hq : ¬ jsTrim q = "") (hyf : ¬ yf = "") (hyt : ¬ yt = "") :
    ∃ d : SearchData, (handleSearch s q a v yf yt).2 = some d ∧
      d.year_from = some (jsParseInt yf) ∧
      d.year_to = some (jsParseInt yt) := by
  refine ⟨buildSearchData q a v yf yt, by simp [handleSearch, hq], ?_, ?_⟩
  · simp [buildSearchData, hyf]
  · simp [buildSearchData, hyt]

/-- Witness for `yearParsing_amended`: the non-numeric `"abc"` and the
out-of-range `"3000"` both travel in the issued request. -/
theorem yearParsing_amended_witness :
    ∃ d : SearchData, (handleSearch initialState "q" "" "" "abc" "3000").2 = some d ∧
      d.year_from = some (jsParseInt "abc") ∧
      d.year_to = some (jsParseInt "3000") :=
  yearParsing_amended initialState "q" "" "" "abc" "3000"
    (by decide) (by decide) (by decide)

/-- C8 counterexample: the request built from `yearFrom = "2020"`,
`yearTo = "2010"` is issued although `yearFrom > yearTo` — no ordering
validation rejects it. -/
theorem yearOrder_counterexample :
    (handleSearch initialState "q" "" "" "2020" "2010").2 =
      some { query := "q", author := none, venue := none,
             year_from := some (JsNumber.int 2020),
             year_to := some (JsNumber.int 2010), limit := 20 } ∧
    ¬ ((2020 : Int) ≤ 2010) := by
  exact ⟨by decide, by decide⟩

/-- C8 amended: `handleSearch` performs no `yearFrom ≤ yearTo` check —
for every pair of year texts parsing to integers `m > n`, the request is
issued carrying `year_from = m`, `year_to = n` unchanged. -/
theorem yearOrder_amended (s : AppState) (q a v yf yt : String)
    (hq : ¬ jsTrim q = "") (hyf : ¬ yf = "") (hyt : ¬ yt = "")
    (m n : Int) (hm : jsParseInt yf = JsNumber.int m)
    (hn : jsParseInt yt = JsNumber.int n) (hlt : n < m) :
    ∃ d : SearchData, (handleSearch s q a v yf yt).2 = some d ∧
      d.year_from = some (JsNumber.int m) ∧
      d.year_to = some (JsNumber.int n) ∧
      ¬ (m ≤ n) := by
  refine ⟨buildSearchData q a v yf yt, by simp [handleSearch, hq], ?_, ?_, by omega⟩
  · simp [buildSearchData, hyf, hm]
  · simp [buildSearchData, hyt, hn]

/-- Witness for `yearOrder_amended` at `"2020"`/`"2010"`. -/
theorem yearOrder_amended_witness :
    ∃ d : SearchData, (handleSearch initialState "q" "" "" "2020" "2010").2 = some d ∧
      d.year_from = some (JsNumber.int 2020) ∧
      d.year_to = some (JsNumber.int 2010) ∧
      ¬ ((2020 : Int) ≤ 2010) :=
  yearOrder_amended initialState "q" "" "" "2020" "2010"
    (by decide) (by decide) (by decide) 2020 2010 (by decide) (by decide) (by decide)

/-- C1 counterexample: request A is submitted, request B is submitted
before A settles, B's response arrives, then A's late response arrives.
The displayed state ends up reflecting A's response, not B's, and A's
late response also fires a second history refresh — it is not
discarded. -/
theorem staleResponse_counterexample :
    runEvents initialState
      [AppEvent.submit "a" "" "" "" "", AppEvent.submit "b" "" "" "" "",
       AppEvent.resolveOk ⟨["paperB"], 2, "infoB"⟩,
       AppEvent.resolveOk ⟨["paperA"], 1, "infoA"⟩] =
      { searchResults := ["paperA"], totalCount := 1, queryInfo := some "infoA",
        searchHistory := [], loading := false, alerts := 0,
        requestsIssued := 2, historyRefreshes := 2 } ∧
    (["paperA"] : List String) ≠ ["paperB"] := by
  exact ⟨by decide, by decide⟩

/-- C1 amended: there is no generation token — the last response to
settle wins.  When A is issued, B is issued before A settles, and A
settles after B, the displayed results, count and query info are
overwritten with A's response, and both responses fire a history
refresh. -/
theorem lastResolveWins (s0 : AppState) (qa qb : String)
    (ha : ¬ jsTrim qa = "") (hb : ¬ jsTrim qb = "")
    (respA respB : SearchResponse) :
    runEvents s0
      [AppEvent.submit qa "" "" "" "", AppEvent.submit qb "" "" "" "",
       AppEvent.resolveOk respB, AppEvent.resolveOk respA] =
      { s0 with searchResults := respA.papers, totalCount := respA.total_count,
                queryInfo := some respA.query_info, loading := false,
                requestsIssued := s0.requestsIssued + 2,
                historyRefreshes := s0.historyRefreshes + 2 } := by
  simp [runEvents, applyEvent, handleSearch, ha, hb]

/-- Witness for `lastResolveWins` on concrete queries and responses. -/
theorem lastResolveWins_witness :
    runEvents initialState
      [AppEvent.submit "a" "" "" "" "", AppEvent.submit "b" "" "" "" "",
       AppEvent.resolveOk ⟨["pB"], 1, "iB"⟩, AppEvent.resolveOk ⟨["pA"], 2, "iA"⟩] =
      { initialState with searchResults := ["pA"], totalCount := 2,
                          queryInfo := some "iA", loading := false,
                          requestsIssued := initialState.requestsIssued + 2,
                          historyRefreshes := initialState.historyRefreshes + 2 } :=
  lastResolveWins initialState "a" "b" (by decide) (by decide)
    ⟨["pA"], 2, "iA"⟩ ⟨["pB"], 1, "iB"⟩

/-- C2 counterexample: a failing search leaves the previously displayed
result set in place.  Starting from a state displaying `["old"]`, a
fresh submit whose request is rejected ends with `searchResults` still
`["old"]` and `queryInfo` still `some "old"` — the prior result set
remains the current display, and no `Failed` variant exists in the
state. -/
theorem failedKeepsPrior_counterexample :
    runEvents
      { searchResults := ["old"], totalCount := 1, queryInfo := some "old",
        searchHistory := [], loading := false, alerts := 0,
        requestsIssued := 1, historyRefreshes := 1 }
      [AppEvent.submit "q" "" "" "" "", AppEvent.resolveErr] =
      { searchResults := ["old"], totalCount := 1, queryInfo := some "old",
        searchHistory := [], loading := false, alerts := 1,
        requestsIssued := 2, historyRefreshes := 1 } := by
  decide

/-- C2 amended: on failure of a submitted search the user is alerted
(the only visible failure signal) and `loading` clears, but the session
display fields — results, total count, query info — keep their prior
values; the failure handling is the same whether or not the failed
request is the latest one. -/
theorem searchFailure_amended (s0 : AppState) (q : String) (hq : ¬ jsTrim q = "") :
    runEvents s0 [AppEvent.submit q "" "" "" "", AppEvent.resolveErr] =
      { s0 with loading := false, alerts := s0.alerts + 1,
                requestsIssued := s0.requestsIssued + 1 } := by
  simp [runEvents, applyEvent, handleSearch, hq]

/-- Witness for `searchFailure_amended` at a concrete state and query. -/
theorem searchFailure_amended_witness :
    runEvents initialState [AppEvent.submit "q" "" "" "" "", AppEvent.resolveErr] =
      { initialState with loading := false, alerts := initialState.alerts + 1,
                          requestsIssued := initialState.requestsIssued + 1 } :=
  searchFailure_amended initialState "q" (by decide)

/-- C10: a submit that issues a request sets `loading`; any settling of
a search request — fulfilled or rejected — clears it, so a completed
request never leaves the session loading; a failed history refresh
changes nothing, and a successful one changes only the cached history,
never the search display fields. -/
theorem loading_and_history_spec (s : AppState) (q a v yf yt : String)
    (hq : ¬ jsTrim q = "") (r : SearchResponse) (entries : List String) :
    (applyEvent s (AppEvent.submit q a v yf yt)).loading = true ∧
    (applyEvent s (AppEvent.resolveOk r)).loading = false ∧
    (applyEvent s AppEvent.resolveErr).loading = false ∧
    applyEvent s AppEvent.historyErr = s ∧
    (applyEvent s (AppEvent.historyOk entries)).searchResults = s.searchResults ∧
    (applyEvent s (AppEvent.historyOk entries)).totalCount = s.totalCount ∧
    (applyEvent s (AppEvent.historyOk entries)).queryInfo = s.queryInfo := by
  refine ⟨?_, rfl, rfl, rfl, rfl, rfl, rfl⟩
  simp [applyEvent, handleSearch, hq]

/-- Witness for `loading_and_history_spec` at concrete inputs. -/
theorem loading_and_history_spec_witness :
    (applyEvent initialState (AppEvent.submit "q" "" "" "" "")).loading = true ∧
    (applyEvent initialState (AppEvent.resolveOk ⟨["p"], 1, "i"⟩)).loading = false ∧
    (applyEvent initialState AppEvent.resolveErr).loading = false ∧
    applyEvent initialState AppEvent.historyErr = initialState ∧
    (applyEvent initialState (AppEvent.historyOk ["h"])).searchResults =
      initialState.searchResults ∧
    (applyEvent initialState (AppEvent.historyOk ["h"])).totalCount =
      initialState.totalCount ∧
    (applyEvent initialState (AppEvent.historyOk ["h"])).queryInfo =
      initialState.queryInfo :=
  loading_and_history_spec initialState "q" "" "" "" "" (by decide) ⟨["p"], 1, "i"⟩ ["h"]

/-- C9 counterexample: when the DELETE fails, `clearHistory` performs no
refresh (the `catch` only logs), and a subsequent `display` still shows
the cached pre-clear entry. -/
theorem clearHistory_counterexample :
    clearHistory ⟨["old"], ["old"]⟩ ReqOutcome.err ReqOutcome.ok =
      (⟨["old"], ["old"]⟩, false) ∧
    display (clearHistory ⟨["old"], ["old"]⟩ ReqOutcome.err ReqOutcome.ok).1 10 =
      ["old"] := by
  exact ⟨by decide, by decide⟩

/-- C9 amended: `clearHistory` refreshes only when the DELETE succeeds;
in that case the cache is emptied and `display` reflects the post-clear
store whatever the refresh outcome.  When the DELETE fails, no refresh
is performed and the cache — pre-clear entries included — is left
exactly as it was. -/
theorem clearHistory_amended (w : HistoryWorld) (fetch : ReqOutcome) :
    (clearHistory w ReqOutcome.ok fetch).2 = true ∧
    (clearHistory w ReqOutcome.ok fetch).1.searchHistory = [] ∧
    (clearHistory w ReqOutcome.ok fetch).1.store = [] ∧
    clearHistory w ReqOutcome.err fetch = (w, false) := by
  cases fetch <;> exact ⟨rfl, rfl, rfl, rfl⟩

end ScholarSearch
